import Mathlib

/-!
Verification of the Social-Engine-ai360Plus background-worker core.

The repository contains several variants of the same worker.  Each variant is
embedded under its own namespace:

* `Loop`   — `apps/social-jobs-worker/src/loop.ts`
* `GA`     — `apps/social-jobs-worker/src/handlers/generate_assets.ts`
             (the file also contains a second copy of the scheduler loop,
             `lockNextJob` / `markDone` / `markFailed` / `unlockStuckJobs`)
* `Worker` — `socialWorker.mjs` (the `social_queue` variant with
             `claimOne` / `requeueStuck` / `markFail` / `performAction`)
* `P1`     — `src/unnamed/part_001` (`updateJobStart` / `updateJobDone`)
* `P4`     — `src/unnamed/part_004` (the upserting `generate_assets` handler)

Timestamps are modelled as natural numbers (milliseconds), JS `null`/missing
as `Option`, and the supabase row updates as explicit row transformers
(patches) together with the boolean filter of the `update` call.
-/

namespace SocialEngine

/-- Status values of a `social_jobs` row (`queued | running | done | failed`). -/
inductive Status
| queued
| running
| done
| failed
deriving DecidableEq, Repr

/-- Status values of a `social_queue` row in `socialWorker.mjs`
(`pending | processing | done | failed`). -/
inductive QStatus
| pending
| processing
| done
| failed
deriving DecidableEq, Repr

/-- Opaque job payload.  `raw` stands for the job-type specific content; the
named fields are the diagnostic keys that `generate_assets.ts`' `markFailed`
spreads into the payload. -/
structure Payload where
  raw : String := ""
  last_error : Option String := none
  last_error_at : Option Nat := none
  attempts : Option Nat := none
  terminal : Option Bool := none
deriving DecidableEq, Repr

/-- A row of the `social_jobs` table (`types.ts` `SocialJobRow`, plus the
diagnostic columns used by the workers). -/
structure JobRow where
  id : Nat
  job_type : String
  status : Status
  attempts : Option Nat
  max_attempts : Option Nat
  payload : Payload
  locked_at : Option Nat
  locked_by : Option String
  last_error : Option String := none
  last_error_at : Option Nat := none
  last_trace_id : Option String := none
  started_at : Option Nat := none
  finished_at : Option Nat := none
  created_at : Nat := 0
  updated_at : Nat := 0
deriving DecidableEq, Repr

/-- A row of the `social_queue` table used by `socialWorker.mjs`. -/
structure QueueRow where
  id : Nat
  action : String
  status : QStatus
  attempts : Option Nat
  claimed_at : Option Nat
  last_error : Option String := none
  created_at : Nat := 0
  updated_at : Nat := 0
deriving DecidableEq, Repr

namespace Loop

/-- `loop.ts` lines 16-19:
`backoffMs(attempts) = Math.min(30000, Math.max(1, attempts + 1) * BACKOFF_BASE_MS)`. -/
def backoffMs (base attempts : Nat) : Nat :=
  min 30000 (max 1 (attempts + 1) * base)

end Loop

namespace Worker

/-- `socialWorker.mjs` lines 39-42:
`backoffMs(attempts) = Math.min(30000, attempts * BACKOFF_BASE_MS)`. -/
def backoffMs (base attempts : Nat) : Nat :=
  min 30000 (attempts * base)

end Worker

/-- Modelled from the spec (for comparison with the code): the contract
`backoffDelay(attempts) = min(cap, max(1, attempts) * base)` with `cap = 30000`. -/
def specBackoffDelay (base attempts : Nat) : Nat :=
  min 30000 (max 1 attempts * base)

namespace GA

/-- The argument of `normalizeHashtags` in `generate_assets.ts`: a JS falsy
value, a single string, or an array (whose elements are coerced by
`String(s)`, so they are modelled as strings). -/
inductive HashInput
| falsy
| str (s : String)
| arr (l : List String)

/-- The test `s.startsWith("#")`: for the one-character needle `"#"` this is
exactly the test that the first character of `s` is `'#'`. -/
def startsWithHash (s : String) : Bool :=
  s.data.head? == some '#'

/-- The common tail of `normalizeHashtags`:
`.map(s => String(s).trim()).filter(Boolean).map(s => s.startsWith("#") ? s : "#" + s).slice(0, 20)`. -/
def hashPipeline (l : List String) : List String :=
  (((l.map String.trim).filter (fun s => s ≠ "")).map
    (fun s => if startsWithHash s then s else "#" ++ s)).take 20

/-- `generate_assets.ts` lines 26-34 (`normalizeHashtags`).  A falsy input
returns `[]`; an array is processed directly; any other value is stringified
and split on `[,\n]`. -/
def normalizeHashtags (input : HashInput) : List String :=
  match input with
  | .falsy => []
  | .str s => if s = "" then [] else hashPipeline (s.split (fun c => c == ',' || c == '\n'))
  | .arr l => hashPipeline l

end GA

namespace Loop

/-- `loop.ts` lines 37-49 (`markRunning`), as the patch the update applies to
the row: `status = "running"`, `attempts = (job.attempts ?? 0) + 1` computed
from the claimed snapshot `snap`, and `last_trace_id = trace_id`.  The update
itself is scoped by `id` and `locked_by = WORKER_ID` (see `markRunningScoped`). -/
def markRunningP (snap : JobRow) (tid : String) (db : JobRow) : JobRow :=
  { db with status := .running, attempts := some (snap.attempts.getD 0 + 1),
            last_trace_id := some tid }

/-- `loop.ts` lines 54-67 (`markDone`) as a row patch: `status = "done"`,
`last_trace_id`, and both lock fields cleared in the same update. -/
def markDoneP (tid : String) (db : JobRow) : JobRow :=
  { db with status := .done, last_trace_id := some tid,
            locked_at := none, locked_by := none }

/-- `loop.ts` lines 73-95 (`markFailed`) as a row patch.  `attempts` and the
`failed`-vs-`queued` decision are computed from the claimed snapshot `snap`
(`attempts = job.attempts + 1`, `max_attempts` defaulting to `5`); the error
message is truncated to 900 characters; both lock fields are cleared. -/
def markFailedP (snap : JobRow) (err tid : String) (now : Nat) (db : JobRow) : JobRow :=
  let attempts := snap.attempts.getD 0 + 1
  let maxAttempts := snap.max_attempts.getD 5
  { db with
      status := if maxAttempts ≤ attempts then .failed else .queued,
      attempts := some attempts,
      last_error := some (err.take 900),
      last_error_at := some now,
      last_trace_id := some tid,
      locked_at := none, locked_by := none }

/-- `loop.ts` lines 97-100: after the `markFailed` update, the worker sleeps
`backoffMs(attempts)` exactly when the next status is `queued`. -/
def markFailedSleep (base : Nat) (snap : JobRow) : Option Nat :=
  let attempts := snap.attempts.getD 0 + 1
  if snap.max_attempts.getD 5 ≤ attempts then none else some (backoffMs base attempts)

/-- `loop.ts` `markRunning` as the full single-row conditional update: the
patch fires only on the row with the job's `id` whose `locked_by` is this
worker. -/
def markRunningScoped (w : String) (jobId : Nat) (snap : JobRow) (tid : String)
    (r : JobRow) : JobRow :=
  if r.id == jobId && decide (r.locked_by = some w) then markRunningP snap tid r else r

/-- `loop.ts` `markDone` as the full single-row conditional update
(`.eq("id", jobId).eq("locked_by", WORKER_ID)`). -/
def markDoneScoped (w : String) (jobId : Nat) (tid : String) (r : JobRow) : JobRow :=
  if r.id == jobId && decide (r.locked_by = some w) then markDoneP tid r else r

/-- `loop.ts` `markFailed` as the full single-row conditional update
(`.eq("id", job.id).eq("locked_by", WORKER_ID)`). -/
def markFailedScoped (w : String) (snap : JobRow) (err tid : String) (now : Nat)
    (r : JobRow) : JobRow :=
  if r.id == snap.id && decide (r.locked_by = some w) then markFailedP snap err tid now r else r

/-- One dispatch of a claimed job in `loop.ts` `runLoop` (lines 122-148):
`markRunning` first, then either the `generate_assets` handler (success →
`markDone`, `res.ok === false` → `markFailed("generate_assets_failed")`,
thrown error → `markFailed(err)`), or — for any other `job_type` —
`markFailed("unknown_job_type:...")` with no handler invoked.  Returns the
resulting row together with the backoff sleep the iteration performs. -/
def iteration (handler : JobRow → Except String Bool) (base : Nat) (tid : String)
    (now : Nat) (j : JobRow) : JobRow × Option Nat :=
  let db1 := markRunningP j tid j
  if j.job_type = "generate_assets" then
    match handler j with
    | .ok true => (markDoneP tid db1, none)
    | .ok false => (markFailedP j "generate_assets_failed" tid now db1, markFailedSleep base j)
    | .error e => (markFailedP j e tid now db1, markFailedSleep base j)
  else
    (markFailedP j ("unknown_job_type:" ++ j.job_type) tid now db1, markFailedSleep base j)

end Loop

namespace GA

/-- `generate_assets.ts` lines 394-401: the patch of `lockNextJob`'s
conditional update — `status = "running"`, `locked_at = now`,
`locked_by = WORKER_ID`. -/
def lockPatch (w : String) (now : Nat) (r : JobRow) : JobRow :=
  { r with status := .running, locked_at := some now, locked_by := some w }

/-- The eligibility filter of `lockNextJob`'s conditional update
(`.eq("status", "queued").is("locked_at", null)`). -/
def lockElig (r : JobRow) : Bool :=
  decide (r.status = .queued) && r.locked_at.isNone

/-- `generate_assets.ts` lines 406-417 (`markDone`): `status = "done"`, the
payload is overwritten with the handler result, and both lock fields are
cleared in the same update (scoped by `id` only). -/
def markDone (result : Payload) (now : Nat) (db : JobRow) : JobRow :=
  { db with status := .done, payload := result,
            locked_at := none, locked_by := none, updated_at := now }

/-- `generate_assets.ts` lines 419-441 (`markFailed`) as a row patch:
`attempts = (job.attempts ?? 0) + 1`, terminal iff `attempts >= max_attempts`
(default `3`), both lock fields cleared, and the error recorded inside the
`payload` json (`last_error`, `last_error_at`, `attempts`, `terminal`) — the
`last_error` column itself is not written.  No backoff sleep follows. -/
def markFailedP (snap : JobRow) (errMsg : String) (now : Nat) (db : JobRow) : JobRow :=
  let attempts := snap.attempts.getD 0 + 1
  let maxA := snap.max_attempts.getD 3
  { db with
      attempts := some attempts,
      status := if maxA ≤ attempts then .failed else .queued,
      locked_at := none, locked_by := none,
      payload := { snap.payload with
                     last_error := some errMsg, last_error_at := some now,
                     attempts := some attempts, terminal := some (decide (maxA ≤ attempts)) },
      updated_at := now }

/-- The condition of `unlockStuckJobs` (lines 370-379):
`status = "running"` and `locked_at < cutoff` (a SQL `lt` on a null
`locked_at` matches nothing). -/
def stuckTest (cutoff : Nat) (r : JobRow) : Bool :=
  decide (r.status = .running) &&
    (match r.locked_at with
     | some l => decide (l < cutoff)
     | none => false)

/-- `unlockStuckJobs` on a single row: stuck rows are returned to `queued`
with both lock fields cleared; every other row is untouched. -/
def unlockOne (cutoff : Nat) (r : JobRow) : JobRow :=
  if stuckTest cutoff r then { r with status := .queued, locked_at := none, locked_by := none }
  else r

/-- `generate_assets.ts` lines 370-379 (`unlockStuckJobs`) over the whole
table. -/
def unlockStuckJobs (cutoff : Nat) (t : List JobRow) : List JobRow :=
  t.map (unlockOne cutoff)

/-- `generate_assets.ts` lines 69-72 (`updateJob`) on a single row: the update
is scoped by `id` alone — no `locked_by` ownership predicate. -/
def updateJobOne (jobId : Nat) (patch : JobRow → JobRow) (r : JobRow) : JobRow :=
  if r.id == jobId then patch r else r

/-- `updateJob` over the whole table. -/
def updateJob (jobId : Nat) (patch : JobRow → JobRow) (t : List JobRow) : List JobRow :=
  t.map (updateJobOne jobId patch)

/-- One iteration of the `runLoop` in `generate_assets.ts` (lines 456-473) on
a claimed job: `processJob` runs the handler for `job_type =
"generate_assets"` and then `markDone`; any other `job_type` throws
`"Unknown job_type: ..."`; a thrown error is caught and routed to
`markFailed`.  The second component is the sleep performed for this job:
there is none — the loop continues immediately after `markFailed`. -/
def runIteration (handler : JobRow → Except String Payload) (now : Nat)
    (j : JobRow) : JobRow × Option Nat :=
  if j.job_type = "generate_assets" then
    match handler j with
    | .ok res => (markDone res now j, none)
    | .error e => (markFailedP j e now j, none)
  else
    (markFailedP j ("Unknown job_type: " ++ j.job_type) now j, none)

/-- `generate_assets.ts` lines 96-101: inside `handleGenerateAssets`, the
handler's own `updateJob(job.id, { status: "running", started_at,
last_error: null, last_trace_id })` — scoped by `id` alone. -/
def handlerStartPatch (tid : String) (now : Nat) (db : JobRow) : JobRow :=
  { db with status := .running, started_at := some now,
            last_error := none, last_trace_id := some tid }

/-- `generate_assets.ts` lines 233-237: inside `handleGenerateAssets`, the
handler's own `updateJob(job.id, { status: "done", finished_at,
last_error: null })` — it moves the row out of `running` without clearing
`locked_by`/`locked_at`; only the loop's separate `markDone` clears them
afterwards. -/
def handlerDonePatch (now : Nat) (db : JobRow) : JobRow :=
  { db with status := .done, finished_at := some now, last_error := none }

/-- The lifecycle of a single `social_jobs` row under the
`generate_assets.ts` worker, with `max_attempts = m`: created `queued` with
`attempts = 0` and no lock; claimed by `lockNextJob`'s conditional update;
patched from inside the handler by its own `updateJob` calls
(`handlerStartPatch` on entry, `handlerDonePatch` on success); finalized by
the loop's `markDone` (which, after a successful handler run, fires on the
`handlerDonePatch`ed row) or by `markFailed`; reaped by `unlockStuckJobs`. -/
inductive Reach (m : Nat) : JobRow → Prop
| init (j : JobRow) :
    j.status = .queued → j.attempts = some 0 → j.max_attempts = some m →
    j.locked_by = none → j.locked_at = none → Reach m j
| claim (j : JobRow) (w : String) (t : Nat) :
    Reach m j → j.status = .queued → j.locked_at = none →
    Reach m (lockPatch w t j)
| handlerStart (j : JobRow) (tid : String) (now : Nat) :
    Reach m j → j.status = .running → Reach m (handlerStartPatch tid now j)
| handlerDone (j : JobRow) (now : Nat) :
    Reach m j → j.status = .running → Reach m (handlerDonePatch now j)
| finishOk (j : JobRow) (res : Payload) (now : Nat) :
    Reach m j → (j.status = .running ∨ j.status = .done) →
    Reach m (markDone res now j)
| finishFail (j : JobRow) (e : String) (now : Nat) :
    Reach m j → j.status = .running → Reach m (markFailedP j e now j)
| reap (j : JobRow) (cutoff : Nat) :
    Reach m j → Reach m (unlockOne cutoff j)

end GA

namespace Worker

/-- Result object of `performAction` in `socialWorker.mjs` (`{ ok, skipped }`;
the `generate_post` success path returns `{ ok: true }`). -/
structure ActionResult where
  ok : Bool
  skipped : Bool
deriving DecidableEq, Repr

/-- `socialWorker.mjs` lines 107-143 (`performAction`): any `action` other
than `"generate_post"` is skipped with `{ ok: true, skipped: true }` and no
generation logic runs; `"generate_post"` invokes the generation pipeline
(abstracted as `gen`, the external collaborator) and yields `{ ok: true }`. -/
def performAction (gen : QueueRow → Except String Unit) (q : QueueRow) :
    Except String ActionResult :=
  if q.action = "generate_post" then
    (gen q).map (fun _ => { ok := true, skipped := false })
  else
    Except.ok { ok := true, skipped := true }

/-- `socialWorker.mjs` lines 278-291 (`markDone`): `status = "done"` and
`updated_at`, scoped by `id` only; `claimed_at` and `attempts` untouched. -/
def markDoneOne (now : Nat) (q : QueueRow) : QueueRow :=
  { q with status := .done, updated_at := now }

/-- `socialWorker.mjs` lines 293-321 (`markFail`): `attempts + 1`, terminal
iff `attempts >= MAX_ATTEMPTS`, `last_error` recorded; afterwards the worker
sleeps `backoffMs(attempts)` when not terminal and the wait is positive. -/
def markFail (base maxAttempts now : Nat) (q : QueueRow) (err : String) :
    QueueRow × Option Nat :=
  let attempts := q.attempts.getD 0 + 1
  let failed := maxAttempts ≤ attempts
  ({ q with status := if failed then .failed else .pending,
            attempts := some attempts, last_error := some err, updated_at := now },
   if failed then none
   else if 0 < backoffMs base attempts then some (backoffMs base attempts) else none)

/-- The condition of `requeueStuck` (lines 230-244): `status = "processing"`
and `claimed_at < now - STUCK_AFTER_MS`. -/
def stuckTest (now stuckAfterMs : Nat) (q : QueueRow) : Bool :=
  decide (q.status = .processing) &&
    (match q.claimed_at with
     | some c => decide (c < now - stuckAfterMs)
     | none => false)

/-- `requeueStuck` on a single row: a stuck row goes back to `pending` with
`last_error = "requeued: stuck processing timeout"` and a fresh `updated_at`;
`claimed_at` and `attempts` are left as they are. -/
def requeueOne (now stuckAfterMs : Nat) (q : QueueRow) : QueueRow :=
  if stuckTest now stuckAfterMs q then
    { q with status := .pending,
             last_error := some "requeued: stuck processing timeout", updated_at := now }
  else q

/-- `socialWorker.mjs` lines 230-244 (`requeueStuck`) over the whole table. -/
def requeueStuck (now stuckAfterMs : Nat) (t : List QueueRow) : List QueueRow :=
  t.map (requeueOne now stuckAfterMs)

/-- The patch of `claimOne`'s conditional update (lines 260-271):
`status = "processing"`, `claimed_at = now`, `updated_at = now`.  No worker
identity is recorded on the row. -/
def claimPatch (now : Nat) (q : QueueRow) : QueueRow :=
  { q with status := .processing, claimed_at := some now, updated_at := now }

/-- One iteration of `main` (lines 342-348) on a claimed job: `performAction`
then `markDone`, or `markFail` on a thrown error. -/
def iteration (gen : QueueRow → Except String Unit) (base maxAttempts now : Nat)
    (q : QueueRow) : QueueRow × Option Nat :=
  match performAction gen q with
  | .ok _ => (markDoneOne now q, none)
  | .error e => markFail base maxAttempts now q e

end Worker

namespace P1

/-- `part_001` lines 38-59 (`updateJobStart`): reads the current `attempts`
from the row, then writes `status = "running"`, `attempts + 1` and the trace
id, scoped by `id` only. -/
def updateJobStart (existing : Option Nat) (tid : String) (db : JobRow) : JobRow :=
  { db with status := .running, attempts := some (existing.getD 0 + 1),
            last_trace_id := some tid }

/-- `part_001` lines 61-73 (`updateJobDone`): `status = "done"`, the error
trail cleared, the trace id recorded — and neither `locked_by` nor
`locked_at` touched; the update is scoped by `id` only. -/
def updateJobDone (tid : String) (db : JobRow) : JobRow :=
  { db with status := .done, last_error := none, last_error_at := none,
            last_trace_id := some tid }

/-- `part_001` lines 75-89 (`updateJobFailed`): unconditionally
`status = "failed"` with the truncated error message; the lock fields are not
touched and the update is scoped by `id` only. -/
def updateJobFailed (tid err : String) (now : Nat) (db : JobRow) : JobRow :=
  { db with status := .failed, last_error := some (err.take 900),
            last_error_at := some now, last_trace_id := some tid }

end P1

/-- A row of the `social_outputs` table, restricted to the columns the claims
are about.  `activity_id` is the column `part_004` upserts on (the
`generate_assets.ts` variant keeps the activity id inside `meta` instead and
plain-inserts). -/
structure OutputRow where
  activity_id : Nat
  channel : String
  vertical_key : String
  title : String
  hook : String
  caption : String
  hashtags : List String
  cta : String
deriving DecidableEq, Repr

/-- The natural key of an output row: the `onConflict:
"activity_id,channel,vertical_key"` tuple of `part_004`. -/
def natKey (r : OutputRow) : Nat × String × String :=
  (r.activity_id, r.channel, r.vertical_key)

namespace GA

/-- `generate_assets.ts` lines 58-67 (`insertOutput`): a plain
`.insert(params)` into `social_outputs` — a new row is appended
unconditionally. -/
def insertOutput (t : List OutputRow) (r : OutputRow) : List OutputRow :=
  t ++ [r]

end GA

namespace P4

/-- `part_004` lines 366-372: `.upsert(insertRow, { onConflict:
"activity_id,channel,vertical_key" })` — if a row with the same natural key
exists its content is replaced, otherwise the row is inserted. -/
def upsertOutput (t : List OutputRow) (r : OutputRow) : List OutputRow :=
  if t.any (fun x => decide (natKey x = natKey r)) then
    t.map (fun x => if natKey x = natKey r then r else x)
  else
    t ++ [r]

end P4

/-- Number of output rows carrying the natural key `k`. -/
def countKey (t : List OutputRow) (k : Nat × String × String) : Nat :=
  (t.filter (fun x => decide (natKey x = k))).length

/-- An atomic conditional-update claim over a row type `ρ`: `key` is the row
id, `elig` the store-side eligibility filter re-checked at update time, and
`patch` the claiming update.  The two laws record that the patch keeps the id
and makes the row ineligible — both hold for each concrete claimer below. -/
structure ClaimModel (ρ : Type) where
  key : ρ → Nat
  elig : ρ → Bool
  patch : String → Nat → ρ → ρ
  key_patch : ∀ w n r, key (patch w n r) = key r
  elig_patch : ∀ w n r, elig (patch w n r) = false

/-- One claim call against the store: the conditional update patches every
row that still matches `key = tgt ∧ elig` at update time; the call returns
the claimed id when the update matched at least one row and `none` otherwise
(the race-loss case). -/
def attemptClaim {ρ : Type} (cm : ClaimModel ρ) (w : String) (now tgt : Nat)
    (t : List ρ) : List ρ × Option Nat :=
  if t.any (fun r => decide (cm.key r = tgt) && cm.elig r) then
    (t.map (fun r => if decide (cm.key r = tgt) && cm.elig r then cm.patch w now r else r),
     some tgt)
  else
    (t, none)

/-- A set of concurrent claim calls, serialized by the store in some order:
each element of `ops` is one caller's `(workerId, now, candidate id)`. -/
def runClaims {ρ : Type} (cm : ClaimModel ρ) :
    List (String × Nat × Nat) → List ρ → List ρ × List (Option Nat)
  | [], t => (t, [])
  | (w, n, tgt) :: ops, t =>
      let res := attemptClaim cm w n tgt t
      let rest := runClaims cm ops res.1
      (rest.1, res.2 :: rest.2)

/-- How many of the serialized claim calls returned the job id `J`. -/
def claimedCount {ρ : Type} (cm : ClaimModel ρ) (ops : List (String × Nat × Nat))
    (t : List ρ) (J : Nat) : Nat :=
  (((runClaims cm ops t).2).filter (fun o => decide (o = some J))).length

/-- No row carrying the job id `J` is still claimable in the store. -/
def noElig {ρ : Type} (cm : ClaimModel ρ) (t : List ρ) (J : Nat) : Prop :=
  ∀ r ∈ t, cm.key r = J → cm.elig r = false

namespace GA

/-- `lockNextJob` (lines 381-404) as an atomic conditional-update claimer on
the `social_jobs` table. -/
def lockModel : ClaimModel JobRow where
  key := JobRow.id
  elig := lockElig
  patch := lockPatch
  key_patch := fun _ _ _ => rfl
  elig_patch := fun _ _ _ => rfl

end GA

namespace Worker

/-- `claimOne` (lines 247-276) as an atomic conditional-update claimer on the
`social_queue` table (the filter re-checked at update time is
`status = "pending"` alone). -/
def claimModel : ClaimModel QueueRow where
  key := QueueRow.id
  elig := fun q => decide (q.status = .pending)
  patch := fun _w now q => claimPatch now q
  key_patch := fun _ _ _ => rfl
  elig_patch := fun _ _ _ => rfl

end Worker

/-- A `social_jobs` row as it looks right after being claimed by worker
`"w1"`: `running`, locked, `attempts = 0`, `max_attempts = 3`. -/
def sampleClaimed : JobRow :=
  { id := 1, job_type := "generate_assets", status := .running, attempts := some 0,
    max_attempts := some 3, payload := {}, locked_at := some 5, locked_by := some "w1" }

/-- A freshly produced `social_jobs` row: `queued`, unlocked, `attempts = 0`,
`max_attempts = 1`. -/
def sampleFresh : JobRow :=
  { id := 4, job_type := "generate_assets", status := .queued, attempts := some 0,
    max_attempts := some 1, payload := {}, locked_at := none, locked_by := none }

/-- A claimed `social_jobs` row with an unregistered `job_type`. -/
def sampleUnknownJob : JobRow :=
  { id := 5, job_type := "send_email", status := .running, attempts := some 0,
    max_attempts := some 3, payload := {}, locked_at := some 1, locked_by := some "w1" }

/-- A running `social_jobs` row owned by another worker (`"other"`). -/
def sampleOtherOwned : JobRow :=
  { id := 7, job_type := "generate_assets", status := .running, attempts := some 0,
    max_attempts := some 3, payload := {}, locked_at := some 1, locked_by := some "other" }

/-- A `social_queue` row stuck in `processing` since `claimed_at = 0`. -/
def sampleStuckQueue : QueueRow :=
  { id := 2, action := "generate_post", status := .processing, attempts := some 0,
    claimed_at := some 0 }

/-- A claimed `social_queue` row whose `action` has no registered handler. -/
def sampleUnknownAction : QueueRow :=
  { id := 3, action := "publish_story", status := .processing, attempts := some 0,
    claimed_at := some 10 }

/-- A first successful run's output for the natural key `(11, "multi",
"general")`. -/
def sampleOut1 : OutputRow :=
  { activity_id := 11, channel := "multi", vertical_key := "general",
    title := "first", hook := "", caption := "", hashtags := [], cta := "" }

/-- A second successful run's output for the same natural key, with different
content. -/
def sampleOut2 : OutputRow :=
  { activity_id := 11, channel := "multi", vertical_key := "general",
    title := "second", hook := "", caption := "", hashtags := [], cta := "" }

end SocialEngine

namespace SocialEngine

/-- Claim C2 counterexample: with the default `BACKOFF_BASE_MS = 2500`, the
`loop.ts` backoff at `attempts = 1` is `5000`, not the spec's
`min(30000, max(1, 1) * 2500) = 2500`; the `socialWorker.mjs` backoff at
`attempts = 0` is `0`, not the spec's `2500`.  Neither implementation computes
`min(cap, max(1, attempts) * base)`. -/
theorem C2_backoff_counterexample :
    Loop.backoffMs 2500 1 = 5000 ∧ specBackoffDelay 2500 1 = 2500 ∧
    Worker.backoffMs 2500 0 = 0 ∧ specBackoffDelay 2500 0 = 2500 := by
  refine ⟨rfl, rfl, rfl, rfl⟩

/-- Claim C2 (amended): both backoff policies are pure functions of the
attempt count with the hard cap `30000`, but the formula is shifted:
`loop.ts` returns `min(cap, max(1, attempts + 1) * base)` — the spec formula
evaluated at `attempts + 1` — and `socialWorker.mjs` returns
`min(cap, attempts * base)`, which agrees with the spec formula only for
`attempts ≥ 1`. -/
theorem C2_backoff_amended (base a : Nat) :
    Loop.backoffMs base a = specBackoffDelay base (a + 1) ∧
    (1 ≤ a → Worker.backoffMs base a = specBackoffDelay base a) ∧
    Loop.backoffMs base a ≤ 30000 ∧ Worker.backoffMs base a ≤ 30000 := by
  refine ⟨rfl, ?_, Nat.min_le_left _ _, Nat.min_le_left _ _⟩
  intro ha
  unfold Worker.backoffMs specBackoffDelay
  rw [Nat.max_eq_right ha]

/-- Witness for C2: the amended statement instantiated at `base = 2500`,
`attempts = 1`, with the hypothesis `1 ≤ 1` discharged. -/
theorem C2_backoff_amended_witness :
    Loop.backoffMs 2500 1 = specBackoffDelay 2500 2 ∧
    Worker.backoffMs 2500 1 = specBackoffDelay 2500 1 :=
  ⟨(C2_backoff_amended 2500 1).1, (C2_backoff_amended 2500 1).2.1 (by decide)⟩

theorem GA.hashPipeline_spec (l : List String) :
    (GA.hashPipeline l).length ≤ 20 ∧
      ∀ s ∈ GA.hashPipeline l, s ≠ "" ∧ s.data.head? = some '#' := by
  constructor
  · exact (List.length_take_le 20 _)
  · intro s hs
    have hs' := List.mem_of_mem_take hs
    rcases List.mem_map.1 hs' with ⟨x, hx, hxs⟩
    have hxne : x ≠ "" := by
      have := (List.mem_filter.1 hx).2
      simpa using this
    by_cases h : GA.startsWithHash x
    · subst hxs
      rw [if_pos h]
      refine ⟨hxne, ?_⟩
      simpa [GA.startsWithHash] using h
    · subst hxs
      rw [if_neg h]
      constructor
      · intro hcontra
        have hdata : ("#" ++ x).data = [] := by rw [hcontra]
        rw [String.data_append] at hdata
        simp at hdata
      · rw [String.data_append]
        rfl

theorem attemptClaim_snd {ρ : Type} (cm : ClaimModel ρ) (w : String) (now tgt : Nat)
    (t : List ρ) :
    (attemptClaim cm w now tgt t).2 = some tgt ∨ (attemptClaim cm w now tgt t).2 = none := by
  unfold attemptClaim
  split
  · exact Or.inl rfl
  · exact Or.inr rfl

theorem noElig_attemptClaim {ρ : Type} (cm : ClaimModel ρ) (w : String) (now tgt : Nat)
    (t : List ρ) (J : Nat) (h : noElig cm t J) :
    noElig cm (attemptClaim cm w now tgt t).1 J := by
  unfold attemptClaim
  split
  · intro r' hr' hkey
    rcases List.mem_map.1 hr' with ⟨r, hr, rfl⟩
    by_cases hc : (decide (cm.key r = tgt) && cm.elig r) = true
    · rw [if_pos hc, cm.elig_patch]
    · rw [if_neg hc] at hkey ⊢
      exact h r hr hkey
  · exact h

theorem attemptClaim_target_noElig {ρ : Type} (cm : ClaimModel ρ) (w : String) (now J : Nat)
    (t : List ρ) :
    noElig cm (attemptClaim cm w now J t).1 J := by
  unfold attemptClaim
  split
  · intro r' hr' hkey
    rcases List.mem_map.1 hr' with ⟨r, hr, rfl⟩
    by_cases hc : (decide (cm.key r = J) && cm.elig r) = true
    · rw [if_pos hc, cm.elig_patch]
    · rw [if_neg hc] at hkey ⊢
      cases helig : cm.elig r
      · rfl
      · exact absurd (by simp [hkey, helig]) hc
  · rename_i hany
    intro r hr hkey
    have hall := List.any_eq_false.1 (Bool.of_not_eq_true hany) r hr
    simpa [hkey] using hall

theorem attemptClaim_none_of_noElig {ρ : Type} (cm : ClaimModel ρ) (w : String) (now J : Nat)
    (t : List ρ) (h : noElig cm t J) :
    (attemptClaim cm w now J t).2 = none := by
  have hany : t.any (fun r => decide (cm.key r = J) && cm.elig r) = false := by
    refine List.any_eq_false.2 (fun r hr => ?_)
    by_cases hkey : cm.key r = J
    · simp [hkey, h r hr hkey]
    · simp [hkey]
  unfold attemptClaim
  rw [hany]
  simp

theorem runClaims_cons {ρ : Type} (cm : ClaimModel ρ) (w : String) (now tgt : Nat)
    (ops : List (String × Nat × Nat)) (t : List ρ) :
    runClaims cm ((w, now, tgt) :: ops) t =
      ((runClaims cm ops (attemptClaim cm w now tgt t).1).1,
        (attemptClaim cm w now tgt t).2 ::
          (runClaims cm ops (attemptClaim cm w now tgt t).1).2) := rfl

theorem claimedCount_cons {ρ : Type} (cm : ClaimModel ρ) (w : String) (now tgt : Nat)
    (ops : List (String × Nat × Nat)) (t : List ρ) (J : Nat) :
    claimedCount cm ((w, now, tgt) :: ops) t J =
      (if (attemptClaim cm w now tgt t).2 = some J then 1 else 0) +
        claimedCount cm ops (attemptClaim cm w now tgt t).1 J := by
  unfold claimedCount
  rw [runClaims_cons]
  by_cases h : (attemptClaim cm w now tgt t).2 = some J
  · simp [h, List.filter_cons, Nat.add_comm]
  · simp [h, List.filter_cons]

theorem claimedCount_eq_zero {ρ : Type} (cm : ClaimModel ρ)
    (ops : List (String × Nat × Nat)) (t : List ρ) (J : Nat) (h : noElig cm t J) :
    claimedCount cm ops t J = 0 := by
  induction ops generalizing t with
  | nil => rfl
  | cons op ops ih =>
      obtain ⟨w, now, tgt⟩ := op
      rw [claimedCount_cons]
      have htail := ih _ (noElig_attemptClaim cm w now tgt t J h)
      by_cases htgt : tgt = J
      · subst htgt
        rw [attemptClaim_none_of_noElig cm w now tgt t h]
        simpa using htail
      · rcases attemptClaim_snd cm w now tgt t with hs | hs <;>
          simp [hs, htgt, htail]

theorem claimedCount_le_one {ρ : Type} (cm : ClaimModel ρ)
    (ops : List (String × Nat × Nat)) (t : List ρ) (J : Nat) :
    claimedCount cm ops t J ≤ 1 := by
  induction ops generalizing t with
  | nil => exact Nat.zero_le 1
  | cons op ops ih =>
      obtain ⟨w, now, tgt⟩ := op
      rw [claimedCount_cons]
      by_cases htgt : tgt = J
      · subst htgt
        have htail := claimedCount_eq_zero cm ops _ tgt (attemptClaim_target_noElig cm w now tgt t)
        rw [htail]
        split <;> simp
      · rcases attemptClaim_snd cm w now tgt t with hs | hs <;>
          · rw [hs]
            simpa [htgt] using ih (attemptClaim cm w now tgt t).1

/-- Claim C1 (confirmed): for any serialization of any set of concurrent
claim calls against the store — each call being the atomic conditional
update of `lockNextJob` (`generate_assets.ts`) or of `claimOne`
(`socialWorker.mjs`) on an arbitrarily chosen candidate id — at most one call
returns a given job id `J` as its claimed job; every other call returns
`none` for `J` in that cycle. -/
theorem C1_at_most_one_claim (ops : List (String × Nat × Nat))
    (t1 : List JobRow) (t2 : List QueueRow) (J : Nat) :
    claimedCount GA.lockModel ops t1 J ≤ 1 ∧
      claimedCount Worker.claimModel ops t2 J ≤ 1 :=
  ⟨claimedCount_le_one GA.lockModel ops t1 J, claimedCount_le_one Worker.claimModel ops t2 J⟩

theorem GA.reach_invariant (m : Nat) (hm : 1 ≤ m) (j : JobRow) (h : GA.Reach m j) :
    j.max_attempts = some m ∧
      ((j.status = .queued ∨ j.status = .running) → j.attempts.getD 0 < m) ∧
      (j.status = .failed → j.attempts = some m) := by
  induction h with
  | init j hq ha hmax hlb hla =>
      refine ⟨hmax, ?_, ?_⟩
      · intro _
        simpa [ha] using hm
      · intro hf
        rw [hq] at hf
        cases hf
  | claim j w t _ hq hla ih =>
      obtain ⟨hmax, hatt, _⟩ := ih
      refine ⟨hmax, ?_, by simp [GA.lockPatch]⟩
      intro _
      simpa [GA.lockPatch] using hatt (Or.inl hq)
  | handlerStart j tid now _ hr ih =>
      obtain ⟨hmax, hatt, _⟩ := ih
      refine ⟨hmax, ?_, by simp [GA.handlerStartPatch]⟩
      intro _
      simpa [GA.handlerStartPatch] using hatt (Or.inr hr)
  | handlerDone j now _ hr ih =>
      obtain ⟨hmax, _, _⟩ := ih
      exact ⟨hmax, by simp [GA.handlerDonePatch], by simp [GA.handlerDonePatch]⟩
  | finishOk j res now _ hr ih =>
      obtain ⟨hmax, _, _⟩ := ih
      exact ⟨hmax, by simp [GA.markDone], by simp [GA.markDone]⟩
  | finishFail j e now _ hr ih =>
      obtain ⟨hmax, hatt, _⟩ := ih
      have ha : j.attempts.getD 0 < m := hatt (Or.inr hr)
      have hgd : j.max_attempts.getD 3 = m := by rw [hmax]; rfl
      by_cases hterm : m ≤ j.attempts.getD 0 + 1
      · have heq : j.attempts.getD 0 + 1 = m := Nat.le_antisymm ha hterm
        refine ⟨hmax, ?_, ?_⟩ <;>
          simp [GA.markFailedP, hgd, hterm, heq]
      · refine ⟨hmax, ?_, ?_⟩ <;>
          simp [GA.markFailedP, hgd, hterm]
        exact Nat.lt_of_not_le hterm
  | reap j cutoff _ ih =>
      obtain ⟨hmax, hatt, hfail⟩ := ih
      by_cases hs : GA.stuckTest cutoff j
      · have hr : j.status = .running := by
          have := (Bool.and_eq_true_iff.1 hs).1
          simpa using this
        simp only [GA.unlockOne, if_pos hs]
        refine ⟨hmax, ?_, by simp⟩
        intro _
        simpa using hatt (Or.inr hr)
      · simp only [GA.unlockOne, if_neg hs]
        exact ⟨hmax, hatt, hfail⟩

/-- Claim C10 (confirmed): for every input, `normalizeHashtags` returns at
most 20 strings, each non-empty and beginning with the character `'#'` (hence
every `hashtags` value the handler passes on to `insertOutput` has at most 20
non-empty `#`-led entries). -/
theorem C10_normalizeHashtags_bounded (input : GA.HashInput) :
    (GA.normalizeHashtags input).length ≤ 20 ∧
      ∀ s ∈ GA.normalizeHashtags input, s ≠ "" ∧ s.data.head? = some '#' := by
  cases input with
  | falsy => simp [GA.normalizeHashtags]
  | str s =>
      by_cases h : s = ""
      · simp [GA.normalizeHashtags, h]
      · simpa [GA.normalizeHashtags, h] using
          GA.hashPipeline_spec (s.split (fun c => c == ',' || c == '\n'))
  | arr l => exact GA.hashPipeline_spec l

/-- Claim C3 counterexample: the `markFailed` of `generate_assets.ts` (lines
419-441), finalizing the claimed job `sampleClaimed` (`attempts = 0`,
`max_attempts = 3`) after a handler failure, requeues the job but performs no
backoff sleep at all — the `runLoop` of that file continues immediately — and
leaves the `last_error` column untouched (the error goes into the payload
json instead). -/
theorem C3_finalize_counterexample :
    (GA.markFailedP sampleClaimed "boom" 1000 sampleClaimed).status = .queued ∧
      (GA.runIteration (fun _ => .error "boom") 1000 sampleClaimed).2 = none ∧
      (GA.markFailedP sampleClaimed "boom" 1000 sampleClaimed).last_error = none := by
  refine ⟨by decide, ?_, by decide⟩
  rfl

/-- Claim C3 (amended): on handler failure, `loop.ts`' `markFailed` increments
`attempts` by exactly one, clears both lock fields, records the truncated
`last_error`, sets `failed` exactly when the incremented attempts reach
`max_attempts` (default 5) and otherwise requeues and sleeps
`backoffMs(attempts)`; the `markFailed` of `generate_assets.ts` performs the
same update (default budget 3) but records the error inside the payload json,
leaves the `last_error` column unchanged, and is followed by no backoff sleep.
Over the lifecycle of a job under the `generate_assets.ts` worker, `status`
becomes `failed` only through a handler failure whose resulting
`attempts` equals `max_attempts`. -/
theorem C3_failure_finalize_amended :
    (∀ base : Nat, ∀ snap : JobRow, ∀ err tid : String, ∀ now : Nat, ∀ db : JobRow,
      (Loop.markFailedP snap err tid now db).attempts = some (snap.attempts.getD 0 + 1) ∧
      (Loop.markFailedP snap err tid now db).locked_by = none ∧
      (Loop.markFailedP snap err tid now db).locked_at = none ∧
      (Loop.markFailedP snap err tid now db).last_error = some (err.take 900) ∧
      (Loop.markFailedP snap err tid now db).last_error_at = some now ∧
      ((Loop.markFailedP snap err tid now db).status = .failed ↔
        snap.max_attempts.getD 5 ≤ snap.attempts.getD 0 + 1) ∧
      ((Loop.markFailedP snap err tid now db).status = .queued ↔
        ¬ snap.max_attempts.getD 5 ≤ snap.attempts.getD 0 + 1) ∧
      ((Loop.markFailedP snap err tid now db).status = .queued →
        Loop.markFailedSleep base snap =
          some (Loop.backoffMs base (snap.attempts.getD 0 + 1))) ∧
      ((Loop.markFailedP snap err tid now db).status = .failed →
        Loop.markFailedSleep base snap = none)) ∧
    (∀ snap : JobRow, ∀ err : String, ∀ now : Nat, ∀ db : JobRow,
      (GA.markFailedP snap err now db).attempts = some (snap.attempts.getD 0 + 1) ∧
      (GA.markFailedP snap err now db).locked_by = none ∧
      (GA.markFailedP snap err now db).locked_at = none ∧
      (GA.markFailedP snap err now db).payload.last_error = some err ∧
      (GA.markFailedP snap err now db).last_error = db.last_error ∧
      ((GA.markFailedP snap err now db).status = .failed ↔
        snap.max_attempts.getD 3 ≤ snap.attempts.getD 0 + 1) ∧
      (∀ hnd, (GA.runIteration hnd now snap).2 = none)) ∧
    (∀ m : Nat, ∀ j : JobRow, 1 ≤ m → GA.Reach m j →
      j.status = .failed → j.attempts = some m) := by
  refine ⟨?_, ?_, ?_⟩
  · intro base snap err tid now db
    by_cases hterm : snap.max_attempts.getD 5 ≤ snap.attempts.getD 0 + 1 <;>
      simp [Loop.markFailedP, Loop.markFailedSleep, hterm]
  · intro snap err now db
    refine ⟨rfl, rfl, rfl, rfl, rfl, ?_, ?_⟩
    · by_cases hterm : snap.max_attempts.getD 3 ≤ snap.attempts.getD 0 + 1 <;>
        simp [GA.markFailedP, hterm]
    · intro hnd
      unfold GA.runIteration
      split
      · cases hnd snap <;> rfl
      · rfl
  · intro m j hm hreach hf
    exact ((GA.reach_invariant m hm j hreach).2.2) hf

/-- Witness for C3 (amended): the failure path of the `generate_assets.ts`
worker on the concrete lifecycle `sampleFresh` (`max_attempts = 1`) — claimed
by `"w1"`, then failed — reaches `failed` with `attempts = 1`; and `loop.ts`'
`markFailed` on the claimed row `sampleClaimed` requeues it and sleeps
`backoffMs 2500 1 = 5000`. -/
theorem C3_failure_finalize_amended_witness :
    (GA.markFailedP (GA.lockPatch "w1" 3 sampleFresh) "boom" 5
        (GA.lockPatch "w1" 3 sampleFresh)).attempts = some 1 ∧
      Loop.markFailedSleep 2500 sampleClaimed = some (Loop.backoffMs 2500 1) := by
  constructor
  · exact (C3_failure_finalize_amended.2.2 1
      (GA.markFailedP (GA.lockPatch "w1" 3 sampleFresh) "boom" 5
        (GA.lockPatch "w1" 3 sampleFresh))
      (by decide)
      (GA.Reach.finishFail (GA.lockPatch "w1" 3 sampleFresh) "boom" 5
        (GA.Reach.claim sampleFresh "w1" 3
          (GA.Reach.init sampleFresh rfl rfl rfl rfl rfl) rfl rfl)
        rfl)
      (by decide))
  · exact (C3_failure_finalize_amended.1 2500 sampleClaimed "boom" "t" 0 sampleClaimed).2.2.2.2.2.2.2.1
      (by decide)

/-- Claim C5 counterexample: `updateJobDone` of `part_001` (lines 61-73) moves
the claimed row `sampleClaimed` out of `running` to `done` while leaving both
`locked_by` and `locked_at` set, so `locked_by != null` no longer implies
`status == running`. -/
theorem C5_lock_invariant_counterexample :
    (P1.updateJobDone "t1" sampleClaimed).status = .done ∧
      (P1.updateJobDone "t1" sampleClaimed).locked_by = some "w1" ∧
      (P1.updateJobDone "t1" sampleClaimed).locked_at = some 5 := by
  refine ⟨rfl, rfl, rfl⟩

/-- Claim C5 (amended): the dedicated finalize operations — `markDone` and
`markFailed` of `loop.ts` and of the `generate_assets.ts` worker, and the
reaper — do clear both lock fields in the same update that changes the
status; but the claimed invariant `locked_by != null ↔ status == running`
does not hold of the code: the `part_001` variant's `updateJobDone` and
`updateJobFailed` change the status without touching the lock fields, and in
`generate_assets.ts` the handler's own `updateJob({ status: "done", ... })`
(lines 233-237) moves the row out of `running` while leaving the lock set,
so a done-with-lock state is reachable in that worker's lifecycle before the
loop's separate `markDone` clears it. -/
theorem C5_lock_invariant_amended :
    (∀ tid : String, ∀ db : JobRow,
      (Loop.markDoneP tid db).locked_by = none ∧ (Loop.markDoneP tid db).locked_at = none ∧
        (Loop.markDoneP tid db).status = .done) ∧
    (∀ snap : JobRow, ∀ err tid : String, ∀ now : Nat, ∀ db : JobRow,
      (Loop.markFailedP snap err tid now db).locked_by = none ∧
        (Loop.markFailedP snap err tid now db).locked_at = none) ∧
    (∀ res : Payload, ∀ now : Nat, ∀ db : JobRow,
      (GA.markDone res now db).locked_by = none ∧ (GA.markDone res now db).locked_at = none ∧
        (GA.markDone res now db).status = .done) ∧
    (∀ snap : JobRow, ∀ err : String, ∀ now : Nat, ∀ db : JobRow,
      (GA.markFailedP snap err now db).locked_by = none ∧
        (GA.markFailedP snap err now db).locked_at = none) ∧
    (∀ cutoff : Nat, ∀ r : JobRow, GA.stuckTest cutoff r = true →
      (GA.unlockOne cutoff r).locked_by = none ∧ (GA.unlockOne cutoff r).locked_at = none ∧
        (GA.unlockOne cutoff r).status = .queued) ∧
    (∀ now : Nat, ∀ db : JobRow,
      (GA.handlerDonePatch now db).status = .done ∧
        (GA.handlerDonePatch now db).locked_by = db.locked_by ∧
        (GA.handlerDonePatch now db).locked_at = db.locked_at) ∧
    (GA.Reach 1 (GA.handlerDonePatch 9 (GA.lockPatch "w1" 3 sampleFresh)) ∧
      (GA.handlerDonePatch 9 (GA.lockPatch "w1" 3 sampleFresh)).status = .done ∧
      (GA.handlerDonePatch 9 (GA.lockPatch "w1" 3 sampleFresh)).locked_by = some "w1" ∧
      (GA.handlerDonePatch 9 (GA.lockPatch "w1" 3 sampleFresh)).locked_at = some 3) ∧
    (∀ tid : String, ∀ db : JobRow,
      (P1.updateJobDone tid db).locked_by = db.locked_by ∧
        (P1.updateJobDone tid db).locked_at = db.locked_at ∧
        (P1.updateJobFailed tid "e" 0 db).locked_by = db.locked_by ∧
        (P1.updateJobFailed tid "e" 0 db).locked_at = db.locked_at) := by
  refine ⟨fun tid db => ⟨rfl, rfl, rfl⟩,
    fun snap err tid now db => ⟨rfl, rfl⟩,
    fun res now db => ⟨rfl, rfl, rfl⟩,
    fun snap err now db => ⟨rfl, rfl⟩,
    ?_,
    fun now db => ⟨rfl, rfl, rfl⟩,
    ⟨?_, rfl, rfl, rfl⟩,
    fun tid db => ⟨rfl, rfl, rfl, rfl⟩⟩
  · intro cutoff r hs
    simp [GA.unlockOne, hs]
  · exact GA.Reach.handlerDone (GA.lockPatch "w1" 3 sampleFresh) 9
      (GA.Reach.claim sampleFresh "w1" 3 (GA.Reach.init sampleFresh rfl rfl rfl rfl rfl) rfl rfl)
      rfl

/-- Witness for C5 (amended): the reaper applied to the concrete stuck row
`sampleClaimed` clears both lock fields (discharging the `stuckTest`
hypothesis), and the handler's done-update applied to the concrete claimed
row keeps the lock of worker `"w1"` while setting `done`. -/
theorem C5_lock_invariant_amended_witness :
    (GA.unlockOne 10 sampleClaimed).locked_by = none ∧
      (GA.unlockOne 10 sampleClaimed).locked_at = none ∧
      (GA.handlerDonePatch 9 (GA.lockPatch "w1" 3 sampleFresh)).locked_by = some "w1" ∧
      (GA.handlerDonePatch 9 (GA.lockPatch "w1" 3 sampleFresh)).status = .done := by
  refine ⟨?_, ?_, ?_, ?_⟩
  · exact (C5_lock_invariant_amended.2.2.2.2.1 10 sampleClaimed (by decide)).1
  · exact (C5_lock_invariant_amended.2.2.2.2.1 10 sampleClaimed (by decide)).2.1
  · exact (C5_lock_invariant_amended.2.2.2.2.2.1 9 (GA.lockPatch "w1" 3 sampleFresh)).2.1
  · exact (C5_lock_invariant_amended.2.2.2.2.2.1 9 (GA.lockPatch "w1" 3 sampleFresh)).1

/-- Claim C6 counterexample: `requeueStuck` of `socialWorker.mjs` returns the
stuck row `sampleStuckQueue` to `pending` but does not clear the lock
timestamp — `claimed_at` survives as `some 0` — and it overwrites
`last_error`, so the stuck job is not returned "with the lock fields null". -/
theorem C6_reaper_counterexample :
    (Worker.requeueOne 700000 600000 sampleStuckQueue).status = .pending ∧
      (Worker.requeueOne 700000 600000 sampleStuckQueue).claimed_at = some 0 ∧
      ¬ (Worker.requeueOne 700000 600000 sampleStuckQueue).claimed_at = none ∧
      Worker.requeueStuck 700000 600000 [sampleStuckQueue] =
        [{ sampleStuckQueue with
             status := .pending,
             last_error := some "requeued: stuck processing timeout",
             updated_at := 700000 }] := by
  refine ⟨by decide, by decide, by decide, by decide⟩

/-- Claim C6 (amended): `unlockStuckJobs` of `generate_assets.ts` returns
exactly the jobs with `status = running` and `locked_at` older than the
cutoff to `queued` with both lock fields cleared and leaves every other job
unchanged; `requeueStuck` of `socialWorker.mjs` returns exactly the rows with
`status = processing` and `claimed_at` older than `now - stuckAfterMs` to
`pending`, recording a requeue note in `last_error`, but leaves `claimed_at`
set (and leaves every other row unchanged). -/
theorem C6_reaper_amended :
    (∀ cutoff : Nat, ∀ r : JobRow,
      (GA.stuckTest cutoff r = true ↔
        r.status = .running ∧ ∃ l, r.locked_at = some l ∧ l < cutoff)) ∧
    (∀ cutoff : Nat, ∀ r : JobRow, GA.stuckTest cutoff r = true →
      GA.unlockOne cutoff r =
        { r with status := .queued, locked_at := none, locked_by := none }) ∧
    (∀ cutoff : Nat, ∀ r : JobRow, GA.stuckTest cutoff r = false →
      GA.unlockOne cutoff r = r) ∧
    (∀ now stuckAfterMs : Nat, ∀ q : QueueRow,
      (Worker.stuckTest now stuckAfterMs q = true ↔
        q.status = .processing ∧ ∃ c, q.claimed_at = some c ∧ c < now - stuckAfterMs)) ∧
    (∀ now stuckAfterMs : Nat, ∀ q : QueueRow, Worker.stuckTest now stuckAfterMs q = true →
      Worker.requeueOne now stuckAfterMs q =
        { q with status := .pending,
                 last_error := some "requeued: stuck processing timeout",
                 updated_at := now }) ∧
    (∀ now stuckAfterMs : Nat, ∀ q : QueueRow, Worker.stuckTest now stuckAfterMs q = false →
      Worker.requeueOne now stuckAfterMs q = q) ∧
    (∀ now stuckAfterMs : Nat, ∀ q : QueueRow,
      (Worker.requeueOne now stuckAfterMs q).claimed_at = q.claimed_at ∧
        (Worker.requeueOne now stuckAfterMs q).attempts = q.attempts) := by
  refine ⟨?_, ?_, ?_, ?_, ?_, ?_, ?_⟩
  · intro cutoff r
    unfold GA.stuckTest
    cases hla : r.locked_at <;> simp [hla]
  · intro cutoff r hs
    simp [GA.unlockOne, hs]
  · intro cutoff r hs
    simp [GA.unlockOne, hs]
  · intro now sa q
    unfold Worker.stuckTest
    cases hca : q.claimed_at <;> simp [hca]
  · intro now sa q hs
    simp [Worker.requeueOne, hs]
  · intro now sa q hs
    simp [Worker.requeueOne, hs]
  · intro now sa q
    by_cases hs : Worker.stuckTest now sa q = true <;>
      simp [Worker.requeueOne, hs]

/-- Witness for C6 (amended): applied to the concrete stuck rows
`sampleClaimed` (a `social_jobs` row locked at 5, cutoff 10) and
`sampleStuckQueue` (claimed at 0, threshold 100000). -/
theorem C6_reaper_amended_witness :
    GA.unlockOne 10 sampleClaimed =
        { sampleClaimed with status := .queued, locked_at := none, locked_by := none } ∧
      Worker.requeueOne 700000 600000 sampleStuckQueue =
        { sampleStuckQueue with
            status := .pending,
            last_error := some "requeued: stuck processing timeout",
            updated_at := 700000 } :=
  ⟨C6_reaper_amended.2.1 10 sampleClaimed (by decide),
   C6_reaper_amended.2.2.2.2.1 700000 600000 sampleStuckQueue (by decide)⟩

/-- Claim C7 counterexample: under `socialWorker.mjs` a claimed job whose
`action` (`"publish_story"`) has no registered handler is skipped by
`performAction` with `{ ok: true, skipped: true }` and the loop then marks it
`done` — even with a generation collaborator that always fails — instead of
routing it through the failure/retry path. -/
theorem C7_unknown_type_counterexample :
    Worker.performAction (fun _ => .error "never invoked") sampleUnknownAction =
        .ok { ok := true, skipped := true } ∧
      (Worker.iteration (fun _ => .error "never invoked") 2500 3 100 sampleUnknownAction).1.status
        = .done ∧
      (Worker.iteration (fun _ => .error "never invoked") 2500 3 100 sampleUnknownAction).1.attempts
        = some 0 := by
  refine ⟨rfl, rfl, rfl⟩

/-- Claim C7 (amended): in `loop.ts` and in the `generate_assets.ts` worker a
claimed job with an unregistered `job_type` invokes no handler logic (the
iteration result does not depend on the handler) and always takes the
`markFailed` failure/retry path, never `done`; in `socialWorker.mjs`,
however, a claimed job whose `action` is not `"generate_post"` is skipped
with `ok: true` — equally without invoking generation logic — and is marked
`done` with `attempts` unchanged. -/
theorem C7_unknown_type_amended :
    (∀ hnd : JobRow → Except String Bool, ∀ base : Nat, ∀ tid : String, ∀ now : Nat,
      ∀ j : JobRow, j.job_type ≠ "generate_assets" →
      (Loop.iteration hnd base tid now j).1 =
          Loop.markFailedP j ("unknown_job_type:" ++ j.job_type) tid now
            (Loop.markRunningP j tid j) ∧
        (Loop.iteration hnd base tid now j).1.status ≠ .done ∧
        (∀ hnd2, Loop.iteration hnd base tid now j = Loop.iteration hnd2 base tid now j)) ∧
    (∀ hnd : JobRow → Except String Payload, ∀ now : Nat, ∀ j : JobRow,
      j.job_type ≠ "generate_assets" →
      (GA.runIteration hnd now j).1 =
          GA.markFailedP j ("Unknown job_type: " ++ j.job_type) now j ∧
        (GA.runIteration hnd now j).1.status ≠ .done ∧
        (∀ hnd2, GA.runIteration hnd now j = GA.runIteration hnd2 now j)) ∧
    (∀ gen : QueueRow → Except String Unit, ∀ base maxAttempts now : Nat, ∀ q : QueueRow,
      q.action ≠ "generate_post" →
      Worker.performAction gen q = .ok { ok := true, skipped := true } ∧
        (Worker.iteration gen base maxAttempts now q).1 = Worker.markDoneOne now q ∧
        (Worker.iteration gen base maxAttempts now q).1.status = .done ∧
        (∀ gen2, Worker.performAction gen q = Worker.performAction gen2 q)) := by
  refine ⟨?_, ?_, ?_⟩
  · intro hnd base tid now j hj
    refine ⟨by simp [Loop.iteration, hj], ?_, ?_⟩
    · simp only [Loop.iteration, if_neg hj]
      by_cases hterm : j.max_attempts.getD 5 ≤ j.attempts.getD 0 + 1 <;>
        simp [Loop.markFailedP, hterm]
    · intro hnd2
      simp [Loop.iteration, hj]
  · intro hnd now j hj
    refine ⟨by simp [GA.runIteration, hj], ?_, ?_⟩
    · simp only [GA.runIteration, if_neg hj]
      by_cases hterm : j.max_attempts.getD 3 ≤ j.attempts.getD 0 + 1 <;>
        simp [GA.markFailedP, hterm]
    · intro hnd2
      simp [GA.runIteration, hj]
  · intro gen base maxAttempts now q hq
    refine ⟨?_, ?_, ?_, ?_⟩ <;>
      simp [Worker.performAction, Worker.iteration, hq]
    rfl

/-- Witness for C7 (amended): the three variants applied to the concrete
unregistered jobs `sampleUnknownJob` (`job_type = "send_email"`) and
`sampleUnknownAction` (`action = "publish_story"`). -/
theorem C7_unknown_type_amended_witness :
    (Loop.iteration (fun _ => .ok true) 2500 "t" 100 sampleUnknownJob).1.status ≠ .done ∧
      (GA.runIteration (fun _ => .ok {}) 100 sampleUnknownJob).1.status ≠ .done ∧
      (Worker.iteration (fun _ => .ok ()) 2500 3 100 sampleUnknownAction).1.status = .done :=
  ⟨((C7_unknown_type_amended.1 (fun _ => .ok true) 2500 "t" 100 sampleUnknownJob
      (by decide)).2.1),
   ((C7_unknown_type_amended.2.1 (fun _ => .ok {}) 100 sampleUnknownJob (by decide)).2.1),
   ((C7_unknown_type_amended.2.2 (fun _ => .ok ()) 2500 3 100 sampleUnknownAction
      (by decide)).2.2.1)⟩

/-- Claim C8 counterexample: the claim/run-start operations do not leave
`attempts` unchanged — `markRunning` of `loop.ts` (lines 37-49) and
`updateJobStart` of `part_001` (lines 38-59) both write `attempts + 1` while
moving the claimed row `sampleClaimed` (whose `attempts` is 0) to
`running`. -/
theorem C8_attempts_counterexample :
    sampleClaimed.attempts = some 0 ∧
      (Loop.markRunningP sampleClaimed "t1" sampleClaimed).attempts = some 1 ∧
      (Loop.markRunningP sampleClaimed "t1" sampleClaimed).status = .running ∧
      (P1.updateJobStart (some 0) "t1" sampleClaimed).attempts = some 1 ∧
      (P1.updateJobStart (some 0) "t1" sampleClaimed).status = .running := by
  refine ⟨rfl, rfl, rfl, rfl, rfl⟩

/-- Claim C8 (amended): `attempts` is incremented by exactly one at execution
start (`markRunning` / `updateJobStart`), and `markFailed` writes the same
incremented value computed from the claim-time snapshot — so one failed
execution increments `attempts` once overall, not twice; the conditional
claim updates (`lockNextJob`, `claimOne`), the reap operations
(`unlockStuckJobs`, `requeueStuck`) and the done updates leave `attempts`
unchanged. -/
theorem C8_attempts_increment_amended :
    (∀ snap : JobRow, ∀ tid : String, ∀ db : JobRow,
      (Loop.markRunningP snap tid db).attempts = some (snap.attempts.getD 0 + 1)) ∧
    (∀ ex : Option Nat, ∀ tid : String, ∀ db : JobRow,
      (P1.updateJobStart ex tid db).attempts = some (ex.getD 0 + 1)) ∧
    (∀ snap : JobRow, ∀ err tid : String, ∀ now : Nat, ∀ db : JobRow,
      (Loop.markFailedP snap err tid now db).attempts =
        (Loop.markRunningP snap tid db).attempts) ∧
    (∀ tid : String, ∀ db : JobRow, (Loop.markDoneP tid db).attempts = db.attempts) ∧
    (∀ res : Payload, ∀ now : Nat, ∀ db : JobRow,
      (GA.markDone res now db).attempts = db.attempts) ∧
    (∀ w : String, ∀ now : Nat, ∀ r : JobRow, (GA.lockPatch w now r).attempts = r.attempts) ∧
    (∀ now : Nat, ∀ q : QueueRow, (Worker.claimPatch now q).attempts = q.attempts) ∧
    (∀ cutoff : Nat, ∀ r : JobRow, (GA.unlockOne cutoff r).attempts = r.attempts) ∧
    (∀ now stuckAfterMs : Nat, ∀ q : QueueRow,
      (Worker.requeueOne now stuckAfterMs q).attempts = q.attempts) := by
  refine ⟨fun _ _ _ => rfl, fun _ _ _ => rfl, fun _ _ _ _ _ => rfl, fun _ _ => rfl,
    fun _ _ _ => rfl, fun _ _ _ => rfl, fun _ _ => rfl, ?_, ?_⟩
  · intro cutoff r
    by_cases hs : GA.stuckTest cutoff r = true <;> simp [GA.unlockOne, hs]
  · intro now sa q
    by_cases hs : Worker.stuckTest now sa q = true <;> simp [Worker.requeueOne, hs]

/-- Claim C9 counterexample: `updateJob` of `generate_assets.ts` (lines
69-72) is scoped by `id` alone, so it mutates the row `sampleOtherOwned` even
though that row is locked by worker `"other"` — as does `updateJobDone` of
`part_001`; a worker that no longer owns a job can still mutate it. -/
theorem C9_ownership_counterexample :
    sampleOtherOwned.locked_by = some "other" ∧
      (GA.updateJobOne 7 (fun r => { r with status := .done }) sampleOtherOwned).status
        = .done ∧
      GA.updateJob 7 (fun r => { r with status := .done }) [sampleOtherOwned]
        ≠ [sampleOtherOwned] ∧
      (P1.updateJobDone "t9" sampleOtherOwned).status = .done := by
  refine ⟨rfl, rfl, by decide, rfl⟩

/-- Claim C9 (amended): the `loop.ts` mutations (`markRunning`, `markDone`,
`markFailed`) are scoped by `locked_by = thisWorkerId` and leave any row not
owned by that worker untouched; but the `generate_assets.ts` `updateJob` and
the `part_001` updates filter on `id` alone, so they apply their patch to a
matching row regardless of which worker holds its lock. -/
theorem C9_ownership_amended :
    (∀ w : String, ∀ jobId : Nat, ∀ tid : String, ∀ r : JobRow,
      r.locked_by ≠ some w → Loop.markDoneScoped w jobId tid r = r) ∧
    (∀ w : String, ∀ jobId : Nat, ∀ snap : JobRow, ∀ tid : String, ∀ r : JobRow,
      r.locked_by ≠ some w → Loop.markRunningScoped w jobId snap tid r = r) ∧
    (∀ w : String, ∀ snap : JobRow, ∀ err tid : String, ∀ now : Nat, ∀ r : JobRow,
      r.locked_by ≠ some w → Loop.markFailedScoped w snap err tid now r = r) ∧
    (∀ jobId : Nat, ∀ patch : JobRow → JobRow, ∀ r : JobRow,
      r.id = jobId → GA.updateJobOne jobId patch r = patch r) ∧
    (∀ tid : String, ∀ r : JobRow,
      (P1.updateJobDone tid r).status = .done ∧
        (P1.updateJobFailed tid "e" 0 r).status = .failed) := by
  refine ⟨?_, ?_, ?_, ?_, fun tid r => ⟨rfl, rfl⟩⟩
  · intro w jobId tid r hw
    simp [Loop.markDoneScoped, hw]
  · intro w jobId snap tid r hw
    simp [Loop.markRunningScoped, hw]
  · intro w snap err tid now r hw
    simp [Loop.markFailedScoped, hw]
  · intro jobId patch r hid
    simp [GA.updateJobOne, hid]

theorem P4.filter_upsert_map (t : List OutputRow) (r : OutputRow)
    (K : Nat × String × String) (hr : natKey r = K) :
    (t.map (fun x => if natKey x = natKey r then r else x)).filter
        (fun x => decide (natKey x = K)) =
      (t.filter (fun x => decide (natKey x = K))).map (fun _ => r) := by
  induction t with
  | nil => rfl
  | cons a t ih =>
      rw [List.map_cons]
      by_cases pa : natKey a = K
      · have har : natKey a = natKey r := by rw [pa, hr]
        rw [if_pos har,
            List.filter_cons_of_pos (p := fun x => decide (natKey x = K)) (by simpa using hr),
            List.filter_cons_of_pos (p := fun x => decide (natKey x = K)) (by simpa using pa),
            List.map_cons, ih]
      · have har : natKey a ≠ natKey r := fun h => pa (h.trans hr)
        rw [if_neg har,
            List.filter_cons_of_neg (p := fun x => decide (natKey x = K)) (by simpa using pa),
            List.filter_cons_of_neg (p := fun x => decide (natKey x = K)) (by simpa using pa),
            ih]

theorem P4.filter_upsert_map_other (t : List OutputRow) (r : OutputRow)
    (k : Nat × String × String) (hk : k ≠ natKey r) :
    (t.map (fun x => if natKey x = natKey r then r else x)).filter
        (fun x => decide (natKey x = k)) =
      t.filter (fun x => decide (natKey x = k)) := by
  induction t with
  | nil => rfl
  | cons a t ih =>
      rw [List.map_cons]
      by_cases ha : natKey a = natKey r
      · have hpa : natKey a ≠ k := fun h => hk (by rw [← h, ha])
        have hpr : natKey r ≠ k := fun h => hk h.symm
        rw [if_pos ha,
            List.filter_cons_of_neg (p := fun x => decide (natKey x = k)) (by simpa using hpr),
            List.filter_cons_of_neg (p := fun x => decide (natKey x = k)) (by simpa using hpa),
            ih]
      · rw [if_neg ha]
        by_cases hpa : natKey a = k
        · rw [List.filter_cons_of_pos (p := fun x => decide (natKey x = k)) (by simpa using hpa),
              List.filter_cons_of_pos (p := fun x => decide (natKey x = k)) (by simpa using hpa),
              ih]
        · rw [List.filter_cons_of_neg (p := fun x => decide (natKey x = k)) (by simpa using hpa),
              List.filter_cons_of_neg (p := fun x => decide (natKey x = k)) (by simpa using hpa),
              ih]

theorem P4.upsert_filter_eq (t : List OutputRow) (r : OutputRow)
    (K : Nat × String × String) (hr : natKey r = K) (hc : countKey t K ≤ 1) :
    (P4.upsertOutput t r).filter (fun x => decide (natKey x = K)) = [r] := by
  unfold P4.upsertOutput
  by_cases hany : t.any (fun x => decide (natKey x = natKey r)) = true
  · rw [if_pos hany, P4.filter_upsert_map t r K hr]
    have h1 : 1 ≤ (t.filter (fun x => decide (natKey x = K))).length := by
      rcases List.any_eq_true.1 hany with ⟨x, hx, hpx⟩
      have hxk : natKey x = K := by
        rw [← hr]
        simpa using hpx
      have hmem : x ∈ t.filter (fun x => decide (natKey x = K)) :=
        List.mem_filter.2 ⟨hx, by simpa using hxk⟩
      exact List.length_pos_of_mem hmem
    have h2 : (t.filter (fun x => decide (natKey x = K))).length = 1 :=
      Nat.le_antisymm hc h1
    cases hfe : t.filter (fun x => decide (natKey x = K)) with
    | nil => rw [hfe] at h2; cases h2
    | cons y ys =>
        rw [hfe] at h2
        have hys : ys = [] := List.length_eq_zero.1 (Nat.succ_injective h2)
        rw [hys]
        rfl
  · rw [if_neg hany, List.filter_append]
    have hnil : t.filter (fun x => decide (natKey x = K)) = [] := by
      refine List.filter_eq_nil_iff.2 (fun x hx => ?_)
      have := List.any_eq_false.1 (Bool.of_not_eq_true hany) x hx
      rw [hr] at this
      simpa using this
    simp [hnil, hr]

theorem P4.countKey_upsert_other (t : List OutputRow) (r : OutputRow)
    (k : Nat × String × String) (hk : k ≠ natKey r) :
    countKey (P4.upsertOutput t r) k = countKey t k := by
  unfold P4.upsertOutput countKey
  by_cases hany : t.any (fun x => decide (natKey x = natKey r)) = true
  · rw [if_pos hany, P4.filter_upsert_map_other t r k hk]
  · have hpr : ¬ natKey r = k := fun h => hk h.symm
    rw [if_neg hany, List.filter_append]
    simp [hpr]

/-- Claim C4 counterexample: with the `insertOutput` of `generate_assets.ts`
(a plain `.insert` into `social_outputs`), two successful runs for the same
natural key `(11, "multi", "general")` leave two sibling rows for that key —
not exactly one row holding the second run's content. -/
theorem C4_output_key_counterexample :
    countKey (GA.insertOutput (GA.insertOutput [] sampleOut1) sampleOut2)
        (natKey sampleOut2) = 2 ∧
      GA.insertOutput (GA.insertOutput [] sampleOut1) sampleOut2 =
        [sampleOut1, sampleOut2] := by
  refine ⟨by decide, by decide⟩

/-- Claim C4 (amended): the `part_004` handler's atomic upsert on
`(activity_id, channel, vertical_key)` does satisfy the claim — it preserves
"at most one row per natural key", and two successful runs with the same key
leave exactly one row for that key, holding the second run's content; the
`generate_assets.ts` variant instead plain-inserts, adding one more sibling
row for the key on every successful run. -/
theorem C4_idempotent_upsert_amended :
    (∀ t : List OutputRow, ∀ r1 r2 : OutputRow, natKey r1 = natKey r2 →
      countKey t (natKey r2) ≤ 1 →
      countKey (P4.upsertOutput (P4.upsertOutput t r1) r2) (natKey r2) = 1 ∧
        (P4.upsertOutput (P4.upsertOutput t r1) r2).filter
            (fun x => decide (natKey x = natKey r2)) = [r2]) ∧
    (∀ t : List OutputRow, ∀ r : OutputRow, ∀ k : Nat × String × String,
      countKey t k ≤ 1 → countKey (P4.upsertOutput t r) k ≤ 1) ∧
    (∀ t : List OutputRow, ∀ r : OutputRow,
      countKey (GA.insertOutput t r) (natKey r) = countKey t (natKey r) + 1) := by
  refine ⟨?_, ?_, ?_⟩
  · intro t r1 r2 h12 hc
    have hfil1 : (P4.upsertOutput t r1).filter
        (fun x => decide (natKey x = natKey r2)) = [r1] :=
      P4.upsert_filter_eq t r1 (natKey r2) h12 hc
    have hc1 : countKey (P4.upsertOutput t r1) (natKey r2) ≤ 1 := by
      unfold countKey
      rw [hfil1]
      simp
    have hfil2 : (P4.upsertOutput (P4.upsertOutput t r1) r2).filter
        (fun x => decide (natKey x = natKey r2)) = [r2] :=
      P4.upsert_filter_eq (P4.upsertOutput t r1) r2 (natKey r2) rfl hc1
    constructor
    · unfold countKey
      rw [hfil2]
      rfl
    · exact hfil2
  · intro t r k hc
    by_cases hk : k = natKey r
    · have hfil := P4.upsert_filter_eq t r (natKey r) rfl (hk ▸ hc)
      unfold countKey
      rw [hk, hfil]
      simp
    · rw [P4.countKey_upsert_other t r k hk]
      exact hc
  · intro t r
    unfold GA.insertOutput countKey
    rw [List.filter_append]
    simp

/-- Witness for C4 (amended): two successful runs writing the concrete
outputs `sampleOut1` then `sampleOut2` (same natural key, different content)
through the `part_004` upsert leave exactly one row for the key, and it is
`sampleOut2`. -/
theorem C4_idempotent_upsert_amended_witness :
    countKey (P4.upsertOutput (P4.upsertOutput [] sampleOut1) sampleOut2)
        (natKey sampleOut2) = 1 ∧
      (P4.upsertOutput (P4.upsertOutput [] sampleOut1) sampleOut2).filter
          (fun x => decide (natKey x = natKey sampleOut2)) = [sampleOut2] :=
  C4_idempotent_upsert_amended.1 [] sampleOut1 sampleOut2 (by decide) (by decide)

/-- Witness for C9 (amended): worker `"w1"`, who does not hold the lock of
`sampleOtherOwned`, cannot mutate it through `loop.ts`' scoped `markDone`,
while the unscoped `updateJob` of `generate_assets.ts` does mutate it. -/
theorem C9_ownership_amended_witness :
    Loop.markDoneScoped "w1" 7 "t" sampleOtherOwned = sampleOtherOwned ∧
      GA.updateJobOne 7 (fun r => { r with status := .done }) sampleOtherOwned =
        { sampleOtherOwned with status := .done } :=
  ⟨C9_ownership_amended.1 "w1" 7 "t" sampleOtherOwned (by decide),
   C9_ownership_amended.2.2.2.1 7 (fun r => { r with status := .done }) sampleOtherOwned rfl⟩

end SocialEngine
